import Mathlib

/-!
# KWStyle: the parser header `kwsParser.h`

A shallow embedding of the rule-code table and of the inline member functions of
`kws::Parser`, followed by the properties of the error ledger, the filename
accessors and the buffer load.

Conventions of the embedding.
* `unsigned long` fields are natural numbers, `long int` offsets are integers;
  none of the operations below does arithmetic on them.
* `std::string` is `String`, `std::vector<T>` is `List T`; a `const char*`
  argument is the character sequence it points to.
* A member function that mutates the object is a function `Parser → Parser`.
  A `const` member function that returns a value is a function
  `Parser → α × Parser` giving the value and the state after the call.
-/

namespace kws

/-! ## Rule codes and their tags -/

/-- The macro `NUMBER_ERRORS`. -/
def NUMBER_ERRORS : Nat := 10

/-- The enumeration `IndentType`. -/
inductive IndentType where
  | SPACE
  | TAB
  deriving DecidableEq, Repr

/-- The enumeration `ErrorType`, the members in the order of their declaration. -/
inductive ErrorType where
  | LINE_LENGTH
  | IVAR_PUBLIC
  | IVAR_REGEX
  | SEMICOLON_SPACE
  | DECL_ORDER
  | EOF_NEW_LINE
  | TABS
  | INDENT
  | HEADER
  | NDEFINE
  deriving DecidableEq, Repr

namespace ErrorType

/-- The numeric value the declaration gives to each member (`LINE_LENGTH = 1`, ...). -/
def toNat : ErrorType → Nat
  | LINE_LENGTH => 1
  | IVAR_PUBLIC => 2
  | IVAR_REGEX => 3
  | SEMICOLON_SPACE => 4
  | DECL_ORDER => 5
  | EOF_NEW_LINE => 6
  | TABS => 7
  | INDENT => 8
  | HEADER => 9
  | NDEFINE => 10

/-- Every member of the enumeration, in declaration order. -/
def all : List ErrorType :=
  [LINE_LENGTH, IVAR_PUBLIC, IVAR_REGEX, SEMICOLON_SPACE, DECL_ORDER,
   EOF_NEW_LINE, TABS, INDENT, HEADER, NDEFINE]

end ErrorType

/-- The terminating character of a C string. -/
def NUL : Char := Char.ofNat 0

/-- The table `ErrorTag[NUMBER_ERRORS][4]`: one row of four `char` per rule code,
the fourth being the terminator. -/
def ErrorTag : List (List Char) :=
  [ ['L', 'E', 'N', NUL],
    ['I', 'V', 'P', NUL],
    ['I', 'V', 'R', NUL],
    ['S', 'E', 'M', NUL],
    ['D', 'C', 'L', NUL],
    ['E', 'O', 'F', NUL],
    ['T', 'A', 'B', NUL],
    ['I', 'N', 'D', NUL],
    ['H', 'R', 'D', NUL],
    ['D', 'E', 'F', NUL] ]

/-- The string a `char` row denotes when it is read as a C string: the characters
before the first terminator. -/
def cString (row : List Char) : String :=
  String.mk (row.takeWhile (fun c => c != NUL))

/-- The row `ErrorTag[c - 1]` of a rule code, `none` when the index is outside
the table. -/
def ErrorTagRow (c : ErrorType) : Option (List Char) :=
  ErrorTag.get? (c.toNat - 1)

/-- The tag string `ErrorTag[c - 1]` of a rule code, `none` when the index is
outside the table. -/
def tagOf (c : ErrorType) : Option String :=
  (ErrorTagRow c).map cString

end kws

namespace kws

/-! ## Findings and the parser state -/

/-- The record `Error`. -/
structure Error where
  /-- main line of the error -/
  line : Nat
  /-- second line of error if the error is covering several lines -/
  line2 : Nat
  number : Nat
  description : String
  deriving DecidableEq, Repr

/-- The record `Info`. -/
structure Info where
  /-- main line of the error -/
  line : Nat
  /-- second line of error if the error is covering several lines -/
  line2 : Nat
  number : Nat
  description : String
  deriving DecidableEq, Repr

/-- The private data members of `class Parser`, in the order of their declaration. -/
structure Parser where
  m_ErrorList : List Error
  m_InfoList : List Info
  m_Buffer : String
  m_BufferNoComment : String
  m_Positions : List Int
  m_CommentPositions : List (Int × Int)
  m_Filename : String
  deriving DecidableEq, Repr

/-! ## The stripper -/

/-- The line break. -/
def newline : Char := Char.ofNat 10

/-- The double quote that delimits a string literal. -/
def doubleQuote : Char := Char.ofNat 34

/-- The single quote that delimits a character literal. -/
def singleQuote : Char := Char.ofNat 39

/-- The backslash that escapes the next character of a literal. -/
def backslash : Char := Char.ofNat 92

/-- What the scanner of the stripper is inside of. A comment mode carries the
byte offset at which the comment started, a literal mode the quote that opened
the literal. -/
inductive StripMode where
  | code
  | lineComment (start : Int)
  | blockOpen (start : Int)
  | blockComment (start : Int)
  | blockClose (start : Int)
  | literal (quote : Char)
  | literalEscape (quote : Char)
  deriving DecidableEq, Repr

/-- The filler written over a blanked character: one space for each of its
bytes, except that a line break is kept. -/
def filler (c : Char) : List Char :=
  if c = newline then [newline] else List.replicate c.utf8Size ' '

/-- Modelled from the spec: the scan behind `Parser::RemoveComments`, whose body
is in `kwsParser.cxx` and not in the header. It reads the raw text from byte
offset `pos` on and returns the stripped text and the comment regions as
`(start, end)` byte offsets into the raw text, `end` being the offset just past
the region.
* `//` opens a line comment, which the next line break terminates;
* `/*` opens a block comment, which the first `*/` terminates, without nesting;
  a block comment that is not terminated extends to the end of the buffer;
* between the two quotes of a literal no comment starts, and a character that
  follows a backslash there belongs to the literal;
* comments and the interiors of literals are overwritten with `filler`, so the
  byte length and the line breaks of the text are preserved. -/
def stripFrom (mode : StripMode) (pos : Int) : List Char → List Char × List (Int × Int)
  | [] =>
    match mode with
    | StripMode.code => ([], [])
    | StripMode.literal _ => ([], [])
    | StripMode.literalEscape _ => ([], [])
    | StripMode.lineComment start => ([], [(start, pos)])
    | StripMode.blockOpen start => ([], [(start, pos)])
    | StripMode.blockComment start => ([], [(start, pos)])
    | StripMode.blockClose start => ([], [(start, pos)])
  | c :: rest =>
    match mode with
    | StripMode.code =>
      if c = '/' ∧ rest.head? = some '/' then
        let r := stripFrom (StripMode.lineComment pos) (pos + c.utf8Size) rest
        (filler c ++ r.1, r.2)
      else if c = '/' ∧ rest.head? = some '*' then
        let r := stripFrom (StripMode.blockOpen pos) (pos + c.utf8Size) rest
        (filler c ++ r.1, r.2)
      else if c = doubleQuote ∨ c = singleQuote then
        let r := stripFrom (StripMode.literal c) (pos + c.utf8Size) rest
        (c :: r.1, r.2)
      else
        let r := stripFrom StripMode.code (pos + c.utf8Size) rest
        (c :: r.1, r.2)
    | StripMode.lineComment start =>
      if c = newline then
        let r := stripFrom StripMode.code (pos + c.utf8Size) rest
        (c :: r.1, (start, pos) :: r.2)
      else
        let r := stripFrom (StripMode.lineComment start) (pos + c.utf8Size) rest
        (filler c ++ r.1, r.2)
    | StripMode.blockOpen start =>
      let r := stripFrom (StripMode.blockComment start) (pos + c.utf8Size) rest
      (filler c ++ r.1, r.2)
    | StripMode.blockComment start =>
      if c = '*' ∧ rest.head? = some '/' then
        let r := stripFrom (StripMode.blockClose start) (pos + c.utf8Size) rest
        (filler c ++ r.1, r.2)
      else
        let r := stripFrom (StripMode.blockComment start) (pos + c.utf8Size) rest
        (filler c ++ r.1, r.2)
    | StripMode.blockClose start =>
      let r := stripFrom StripMode.code (pos + c.utf8Size) rest
      (filler c ++ r.1, (start, pos + c.utf8Size) :: r.2)
    | StripMode.literal quote =>
      if c = backslash then
        let r := stripFrom (StripMode.literalEscape quote) (pos + c.utf8Size) rest
        (filler c ++ r.1, r.2)
      else if c = quote then
        let r := stripFrom StripMode.code (pos + c.utf8Size) rest
        (c :: r.1, r.2)
      else
        let r := stripFrom (StripMode.literal quote) (pos + c.utf8Size) rest
        (filler c ++ r.1, r.2)
    | StripMode.literalEscape quote =>
      let r := stripFrom (StripMode.literal quote) (pos + c.utf8Size) rest
      (filler c ++ r.1, r.2)

/-- Modelled from the spec: the contract `strip(raw) -> (stripped, commentRegions)`
of the stripper, the scan started in code at offset 0. -/
def strip (raw : String) : String × List (Int × Int) :=
  let r := stripFrom StripMode.code 0 raw.data
  (String.mk r.1, r.2)

/-- Modelled from the spec: `Parser::RemoveComments`, declared in the header
("Remove the comments.") with its body in `kwsParser.cxx`. The spec has the load
of a buffer set the raw buffer, trigger the stripping and reset the ledger and
the structural caches, so that the stripped buffer, the position map and the
ledger of the text loaded before are discarded. The header has `SetBuffer`
assign the raw buffer and then make this call, so the rest of the load is here:
the stripped buffer and the comment regions are derived from the raw buffer
`m_Buffer`, the offset bookkeeping `m_Positions` restarts empty (the blanking
preserves offsets), and the two lists of the ledger are reset. The raw buffer
and the filename are not written. -/
def RemoveComments (s : Parser) : Parser :=
  { s with
    m_ErrorList := []
    m_InfoList := []
    m_BufferNoComment := (strip s.m_Buffer).1
    m_Positions := []
    m_CommentPositions := (strip s.m_Buffer).2 }

/-! ## The inline member functions of `Parser` -/

/-- The first statement of `SetBuffer`: `m_Buffer = buffer;`. -/
def SetBuffer_assign (buffer : String) (s : Parser) : Parser :=
  { s with m_Buffer := buffer }

/-- Set the buffer to analyze: `m_Buffer = buffer; this->RemoveComments();`. -/
def SetBuffer (buffer : String) (s : Parser) : Parser :=
  RemoveComments (SetBuffer_assign buffer s)

/-- Return the error vector: `return m_ErrorList;`, a `const` member function. -/
def GetErrors (s : Parser) : List Error × Parser :=
  (s.m_ErrorList, s)

/-- Clear the error list: `m_ErrorList.clear();`. -/
def ClearErrors (s : Parser) : Parser :=
  { s with m_ErrorList := [] }

/-- Clear the info list: `m_InfoList.clear();`. -/
def ClearInfo (s : Parser) : Parser :=
  { s with m_InfoList := [] }

/-- Set the filename of the file we are checking: `m_Filename = filename;`. -/
def SetFilename (filename : String) (s : Parser) : Parser :=
  { s with m_Filename := filename }

/-- The accessor `GetFilename`: `return m_Filename;`, a `const` member function. -/
def GetFilename (s : Parser) : String × Parser :=
  (s.m_Filename, s)

/-! ## Sample states -/

/-- A finding of the line-length rule. -/
def sampleError : Error :=
  { line := 3, line2 := 0, number := ErrorType.LINE_LENGTH.toNat,
    description := "Line length exceed 80 characters" }

/-- A note of the ledger of infos. -/
def sampleInfo : Info :=
  { line := 1, line2 := 0, number := ErrorType.HEADER.toNat,
    description := "header checked" }

/-- A parser that has analysed a file and holds one finding and one info. -/
def sampleParser : Parser :=
  { m_ErrorList := [sampleError]
    m_InfoList := [sampleInfo]
    m_Buffer := "int a; // x"
    m_BufferNoComment := "int a;     "
    m_Positions := []
    m_CommentPositions := [(7, 11)]
    m_Filename := "a.h" }

/-- A text to load. -/
def sampleText : String := "/* c */ int b;"

/-- The text `s = "a\"//b"; int t;`: a string literal that holds an escaped quote
followed by two slashes. -/
def escapedQuoteText : String :=
  String.mk ['s', ' ', '=', ' ', doubleQuote, 'a', backslash, doubleQuote, '/', '/', 'b',
    doubleQuote, ';', ' ', 'i', 'n', 't', ' ', 't', ';']

/-- A line comment that holds a character of two bytes, and a statement on the
next line. -/
def twoByteText : String :=
  String.mk ['/', '/', ' ', Char.ofNat 233, newline, 'x', ';']

end kws

namespace kws

/-! ## Evaluation of the definitions on small inputs -/

example : tagOf ErrorType.LINE_LENGTH = some "LEN" := by decide
example : tagOf ErrorType.NDEFINE = some "DEF" := by decide
example : ErrorType.all.map ErrorType.toNat = List.range' 1 10 := by decide
example : strip "int a; // x" = ("int a;     ", [(7, 11)]) := by decide
example : strip sampleText = ("        int b;", [(0, 7)]) := by decide
example : (SetBuffer sampleText sampleParser).m_CommentPositions = [(0, 7)] := by decide
example : (GetErrors (ClearErrors sampleParser)).1 = [] := by decide
example : (GetErrors (SetBuffer sampleText sampleParser)).1 = [] := by decide
example : (SetBuffer sampleText sampleParser).m_Buffer = sampleText := by decide
example : (strip escapedQuoteText).2 = [] := by decide
example : (strip escapedQuoteText).1.length = escapedQuoteText.length := by decide
example : strip twoByteText = (String.mk [' ', ' ', ' ', ' ', ' ', newline, 'x', ';'], [(0, 5)]) := by
  decide
example : (strip twoByteText).1.utf8ByteSize = twoByteText.utf8ByteSize := by decide

/-! ## Helper lemmas -/

theorem toNat_pos (c : ErrorType) : 1 ≤ c.toNat := by
  cases c <;> decide

theorem toNat_le (c : ErrorType) : c.toNat ≤ NUMBER_ERRORS := by
  cases c <;> decide

/-! ## The stripper preserves the byte length and the line breaks -/

theorem utf8Len_replicate_space (n : Nat) : String.utf8Len (List.replicate n ' ') = n := by
  induction n with
  | zero => rfl
  | succ k ih =>
    rw [List.replicate_succ, String.utf8Len_cons, ih]
    rfl

theorem utf8Len_filler (c : Char) : String.utf8Len (filler c) = c.utf8Size := by
  unfold filler
  split
  · next h => subst h; decide
  · exact utf8Len_replicate_space _

theorem stripFrom_utf8Len (cs : List Char) (mode : StripMode) (pos : Int) :
    String.utf8Len (stripFrom mode pos cs).1 = String.utf8Len cs := by
  induction cs generalizing mode pos with
  | nil => cases mode <;> rfl
  | cons c rest ih =>
    cases mode <;> simp only [stripFrom] <;> (try split_ifs) <;>
      simp [String.utf8Len_append, utf8Len_filler, ih, Nat.add_comm]

/-- The stripped buffer has the byte length of the raw buffer. -/
theorem strip_utf8ByteSize (raw : String) : (strip raw).1.utf8ByteSize = raw.utf8ByteSize := by
  cases raw with
  | mk cs =>
    show String.utf8ByteSize (String.mk _) = String.utf8ByteSize (String.mk cs)
    simp only [String.utf8ByteSize_mk]
    exact stripFrom_utf8Len cs StripMode.code 0

theorem count_newline_filler (c : Char) :
    (filler c).count newline = if c = newline then 1 else 0 := by
  unfold filler
  split
  · rfl
  · rw [List.count_replicate]
    have h : (' ' == newline) = false := by decide
    simp [h]

theorem stripFrom_count_newline (cs : List Char) (mode : StripMode) (pos : Int) :
    (stripFrom mode pos cs).1.count newline = cs.count newline := by
  induction cs generalizing mode pos with
  | nil => cases mode <;> rfl
  | cons c rest ih =>
    cases mode <;> simp only [stripFrom] <;> (try split_ifs) <;>
      simp [List.count_append, List.count_cons, count_newline_filler, ih, Nat.add_comm]

/-- The stripped buffer has as many line breaks as the raw buffer. -/
theorem strip_count_newline (raw : String) :
    (strip raw).1.data.count newline = raw.data.count newline :=
  stripFrom_count_newline raw.data StripMode.code 0

/-! ## The tag table -/

/-- C1: two rule codes whose tag strings `ErrorTag[c1-1]` and `ErrorTag[c2-1]` are
equal are the same rule code, so no two codes share a tag. -/
theorem tagOf_injective (c1 c2 : ErrorType) (h : tagOf c1 = tagOf c2) : c1 = c2 := by
  cases c1 <;> cases c2 <;> first | rfl | (exfalso; revert h; decide)

theorem tagOf_injective_witness :
    tagOf ErrorType.TABS = tagOf ErrorType.TABS ∧ ErrorType.TABS = ErrorType.TABS :=
  ⟨rfl, tagOf_injective ErrorType.TABS ErrorType.TABS rfl⟩

/-- C2: each rule code has the tag named for it, read as `ErrorTag[code-1]`; the
tags of the table are exactly LEN, IVP, TAB, IND, HRD, DEF, SEM, DCL, EOF, IVR;
and every tag has three characters. -/
theorem tagOf_values :
    tagOf ErrorType.LINE_LENGTH = some "LEN" ∧
    tagOf ErrorType.IVAR_PUBLIC = some "IVP" ∧
    tagOf ErrorType.IVAR_REGEX = some "IVR" ∧
    tagOf ErrorType.SEMICOLON_SPACE = some "SEM" ∧
    tagOf ErrorType.DECL_ORDER = some "DCL" ∧
    tagOf ErrorType.EOF_NEW_LINE = some "EOF" ∧
    tagOf ErrorType.TABS = some "TAB" ∧
    tagOf ErrorType.INDENT = some "IND" ∧
    tagOf ErrorType.HEADER = some "HRD" ∧
    tagOf ErrorType.NDEFINE = some "DEF" ∧
    (∀ t : String, t ∈ ErrorTag.map cString ↔
      t ∈ ["LEN", "IVP", "TAB", "IND", "HRD", "DEF", "SEM", "DCL", "EOF", "IVR"]) ∧
    (∀ t ∈ ErrorTag.map cString, t.length = 3) ∧
    (∀ c : ErrorType, ∃ t, tagOf c = some t ∧ t.length = 3) := by
  refine ⟨by decide, by decide, by decide, by decide, by decide, by decide, by decide,
    by decide, by decide, by decide, ?_, by decide, ?_⟩
  · intro t
    have hperm : List.Perm (ErrorTag.map cString)
        ["LEN", "IVP", "TAB", "IND", "HRD", "DEF", "SEM", "DCL", "EOF", "IVR"] := by
      decide
    exact hperm.mem_iff
  · intro c
    cases c <;> exact ⟨_, rfl, by decide⟩

/-- C3: the enumeration has exactly ten members, with the values 1, 2, ..., 10
without gap or repeat; `NUMBER_ERRORS` is 10 and is the number of rows of
`ErrorTag`; so the index `c - 1` of every rule code lies in the table and the
lookup `ErrorTag[c-1]` finds a row. -/
theorem ErrorType_codes :
    (∀ c : ErrorType, c ∈ ErrorType.all) ∧
    ErrorType.all.Nodup ∧
    ErrorType.all.length = 10 ∧
    ErrorType.all.map ErrorType.toNat = [1, 2, 3, 4, 5, 6, 7, 8, 9, 10] ∧
    (∀ n : Nat, (∃ c : ErrorType, c.toNat = n) ↔ (1 ≤ n ∧ n ≤ 10)) ∧
    (∀ c d : ErrorType, c.toNat = d.toNat ↔ c = d) ∧
    NUMBER_ERRORS = 10 ∧
    ErrorTag.length = NUMBER_ERRORS ∧
    (∀ row ∈ ErrorTag, row.length = 4) ∧
    (∀ c : ErrorType, 1 ≤ c.toNat ∧ c.toNat - 1 < NUMBER_ERRORS ∧
      c.toNat - 1 < ErrorTag.length ∧ (ErrorTagRow c).isSome = true) := by
  refine ⟨?_, by decide, by decide, by decide, ?_, ?_, rfl, by decide, by decide, ?_⟩
  · intro c
    cases c <;> decide
  · intro n
    constructor
    · rintro ⟨c, rfl⟩
      exact ⟨toNat_pos c, toNat_le c⟩
    · rintro ⟨h1, h2⟩
      have hn : n ∈ ErrorType.all.map ErrorType.toNat := by
        have hmap : ErrorType.all.map ErrorType.toNat = List.range' 1 10 := by decide
        rw [hmap, List.mem_range']
        exact ⟨n - 1, by omega, by omega⟩
      obtain ⟨c, _, hc⟩ := List.mem_map.mp hn
      exact ⟨c, hc⟩
  · intro c d
    constructor
    · intro h
      cases c <;> cases d <;> first | rfl | (exfalso; revert h; decide)
    · rintro rfl
      rfl
  · intro c
    cases c <;> decide

/-! ## The ledger, the buffer load and the filename -/

/-- C4: after `SetBuffer t` the ledger is reset: `GetErrors` returns the empty
sequence and the info list is empty, whatever findings the state held before
the load. -/
theorem SetBuffer_resets_ledger (s : Parser) (t : String) :
    (GetErrors (SetBuffer t s)).1 = [] ∧ (SetBuffer t s).m_InfoList = [] :=
  ⟨rfl, rfl⟩

/-- C5: `SetFilename`, `ClearInfo`, `GetErrors` and `GetFilename` leave the error
list exactly as it was, and the assignment of the raw buffer in `SetBuffer`
removes no finding from it. -/
theorem ErrorList_frame (s : Parser) (n t : String) :
    (SetFilename n s).m_ErrorList = s.m_ErrorList ∧
    (ClearInfo s).m_ErrorList = s.m_ErrorList ∧
    (GetErrors s).2.m_ErrorList = s.m_ErrorList ∧
    (GetFilename s).2.m_ErrorList = s.m_ErrorList ∧
    (SetBuffer_assign t s).m_ErrorList = s.m_ErrorList :=
  ⟨rfl, rfl, rfl, rfl, rfl⟩

/-- C6: after `ClearErrors` the sequence returned by `GetErrors` is empty, and
after `ClearInfo` the info list is empty, whatever the state held. -/
theorem Clear_empties (s : Parser) :
    (GetErrors (ClearErrors s)).1 = [] ∧ (ClearInfo s).m_InfoList = [] :=
  ⟨rfl, rfl⟩

/-- C7: `SetBuffer t` is: store `t` as the raw buffer, then run `RemoveComments`
once on the resulting state. The state the stripper receives has `t` as its raw
buffer and every other member as before, and the result of the load does not
depend on the text that was loaded before. -/
theorem SetBuffer_eq (s : Parser) (t : String) :
    SetBuffer t s = RemoveComments (SetBuffer_assign t s) ∧
    (SetBuffer_assign t s).m_Buffer = t ∧
    SetBuffer_assign t s = { s with m_Buffer := t } ∧
    (∀ old : String, SetBuffer t { s with m_Buffer := old } = SetBuffer t s) :=
  ⟨rfl, rfl, rfl, fun _ => rfl⟩

/-- C8: `SetFilename` changes only the stored filename: the raw buffer, the
stripped buffer, the two position vectors, the error list and the info list are
what they were. -/
theorem SetFilename_frame (s : Parser) (n : String) :
    (SetFilename n s).m_Buffer = s.m_Buffer ∧
    (SetFilename n s).m_BufferNoComment = s.m_BufferNoComment ∧
    (SetFilename n s).m_Positions = s.m_Positions ∧
    (SetFilename n s).m_CommentPositions = s.m_CommentPositions ∧
    (SetFilename n s).m_ErrorList = s.m_ErrorList ∧
    (SetFilename n s).m_InfoList = s.m_InfoList ∧
    SetFilename n s = { s with m_Filename := n } :=
  ⟨rfl, rfl, rfl, rfl, rfl, rfl, rfl⟩

/-- C9: `GetFilename` after `SetFilename n` returns `n`; a later `SetFilename m`
overrides it; `GetFilename` leaves the state as it is, so two successive calls
return the same value. -/
theorem Filename_roundtrip (s : Parser) (n m : String) :
    (GetFilename (SetFilename n s)).1 = n ∧
    (GetFilename (SetFilename m (SetFilename n s))).1 = m ∧
    (GetFilename s).2 = s ∧
    (GetFilename (GetFilename s).2).1 = (GetFilename s).1 :=
  ⟨rfl, rfl, rfl, rfl⟩

/-- C10: `ClearErrors` leaves the info list, the buffers, the position vectors and
the filename unchanged; `ClearInfo` leaves the error list and those members
unchanged; the two commute and each is idempotent. -/
theorem Clear_frame (s : Parser) :
    ((ClearErrors s).m_InfoList = s.m_InfoList ∧
      (ClearErrors s).m_Buffer = s.m_Buffer ∧
      (ClearErrors s).m_BufferNoComment = s.m_BufferNoComment ∧
      (ClearErrors s).m_Positions = s.m_Positions ∧
      (ClearErrors s).m_CommentPositions = s.m_CommentPositions ∧
      (ClearErrors s).m_Filename = s.m_Filename) ∧
    ((ClearInfo s).m_ErrorList = s.m_ErrorList ∧
      (ClearInfo s).m_Buffer = s.m_Buffer ∧
      (ClearInfo s).m_BufferNoComment = s.m_BufferNoComment ∧
      (ClearInfo s).m_Positions = s.m_Positions ∧
      (ClearInfo s).m_CommentPositions = s.m_CommentPositions ∧
      (ClearInfo s).m_Filename = s.m_Filename) ∧
    ClearErrors (ClearInfo s) = ClearInfo (ClearErrors s) ∧
    ClearErrors (ClearErrors s) = ClearErrors s ∧
    ClearInfo (ClearInfo s) = ClearInfo s :=
  ⟨⟨rfl, rfl, rfl, rfl, rfl, rfl⟩, ⟨rfl, rfl, rfl, rfl, rfl, rfl⟩, rfl, rfl, rfl⟩

end kws
